import Mathlib

/-!
Shallow embedding of `app.py` (gated consulting-report engine) and proofs
about its two numeric cores and its usage-quota gate.

Conventions:
* Python floats are modelled by exact rationals (`ℚ`); the spec states all
  formulas over real arithmetic.
* Python `round` (banker's rounding, round-half-to-even) is modelled by
  `pyRound`; `round(x, 2)` by `pyRound2`.
* Spreadsheet cells are modelled by their string rendering (`astype(str)`)
  together with an optional numeric value (the result of `float(cell)`,
  `none` when the coercion raises).
-/

namespace App

/-- Python `round` on a rational: round half to even (banker's rounding). -/
def pyRound (x : ℚ) : ℤ :=
  if x - ⌊x⌋ < 1 / 2 then ⌊x⌋
  else if 1 / 2 < x - ⌊x⌋ then ⌊x⌋ + 1
  else if ⌊x⌋ % 2 = 0 then ⌊x⌋ else ⌊x⌋ + 1

/-- Python `round(x, 2)`: round to two decimal places, half to even. -/
def pyRound2 (x : ℚ) : ℚ :=
  (pyRound (x * 100) : ℚ) / 100

lemma floor_le_pyRound (x : ℚ) : ⌊x⌋ ≤ pyRound x := by
  unfold pyRound
  split_ifs <;> omega

lemma pyRound_le_floor_add_one (x : ℚ) : pyRound x ≤ ⌊x⌋ + 1 := by
  unfold pyRound
  split_ifs <;> omega

lemma pyRound_nonneg {x : ℚ} (hx : 0 ≤ x) : 0 ≤ pyRound x :=
  le_trans (Int.floor_nonneg.2 hx) (floor_le_pyRound x)

lemma pyRound_eq_floor {x : ℚ} (h : x - (⌊x⌋ : ℚ) < 1 / 2) : pyRound x = ⌊x⌋ := by
  unfold pyRound
  rw [if_pos h]

lemma pyRound_eq_floor_add_one {x : ℚ} (h : 1 / 2 < x - (⌊x⌋ : ℚ)) :
    pyRound x = ⌊x⌋ + 1 := by
  unfold pyRound
  rw [if_neg (by linarith), if_pos h]

lemma pyRound_mono {a b : ℚ} (hab : a ≤ b) : pyRound a ≤ pyRound b := by
  rcases lt_or_eq_of_le (Int.floor_le_floor hab) with hf | hf
  · calc pyRound a ≤ ⌊a⌋ + 1 := pyRound_le_floor_add_one a
      _ ≤ ⌊b⌋ := by omega
      _ ≤ pyRound b := floor_le_pyRound b
  · have hfq : ((⌊a⌋ : ℤ) : ℚ) = ((⌊b⌋ : ℤ) : ℚ) := by exact_mod_cast hf
    have hfr : a - (⌊a⌋ : ℚ) ≤ b - (⌊b⌋ : ℚ) := by rw [← hfq]; linarith
    by_cases hb1 : b - (⌊b⌋ : ℚ) < 1 / 2
    · have ha1 : a - (⌊a⌋ : ℚ) < 1 / 2 := lt_of_le_of_lt hfr hb1
      rw [pyRound_eq_floor ha1, pyRound_eq_floor hb1, hf]
    · by_cases hb2 : 1 / 2 < b - (⌊b⌋ : ℚ)
      · rw [pyRound_eq_floor_add_one hb2, ← hf]
        exact pyRound_le_floor_add_one a
      · by_cases ha1 : a - (⌊a⌋ : ℚ) < 1 / 2
        · rw [pyRound_eq_floor ha1, hf]
          exact floor_le_pyRound b
        · have hab2 : a = b := by
            have h1 : a - (⌊a⌋ : ℚ) = 1 / 2 := le_antisymm
              (le_trans hfr (not_lt.1 hb2)) (not_lt.1 ha1)
            have h2 : b - (⌊b⌋ : ℚ) = 1 / 2 := le_antisymm (not_lt.1 hb2)
              (le_trans (not_lt.1 ha1) hfr)
            linarith [hfq]
          rw [hab2]

lemma pyRound_close (x : ℚ) : |x - (pyRound x : ℚ)| ≤ 1 / 2 := by
  have h0 : (⌊x⌋ : ℚ) ≤ x := Int.floor_le x
  have h1 : x < (⌊x⌋ : ℚ) + 1 := Int.lt_floor_add_one x
  unfold pyRound
  rw [abs_le]
  split_ifs with ha hb hc <;> constructor <;> push_cast <;> linarith

/-- DAILY_LIMIT constant from `app.py`. -/
def DAILY_LIMIT : ℕ := 5

/-- MONTHLY_LIMIT constant from `app.py`. -/
def MONTHLY_LIMIT : ℕ := 100

/-! ### Financial projector (`estimate_personal_tax`, `estimate_corp_tax`,
`estimate_health`, `build_5y_sim`) -/

/-- The effective personal-tax rate `min(0.35, 0.08 + (profit / 500_000_000) * 0.12)`
computed inside `estimate_personal_tax` for positive profit. -/
def personal_tax_rate (profit : ℚ) : ℚ :=
  min (35 / 100) (8 / 100 + profit / 500000000 * (12 / 100))

/-- `estimate_personal_tax` from `app.py`. -/
def estimate_personal_tax (profit : ℚ) : ℚ :=
  if profit ≤ 0 then 0
  else profit * personal_tax_rate profit

/-- `estimate_corp_tax` from `app.py`. -/
def estimate_corp_tax (profit : ℚ) : ℚ :=
  if profit ≤ 0 then 0
  else profit * (if profit ≤ 200000000 then 9 / 100 else 19 / 100)

/-- `estimate_health` from `app.py`. -/
def estimate_health (profit : ℚ) (is_regional : Bool) : ℚ :=
  if profit ≤ 0 then 0
  else profit * (if is_regional then 7 / 100 else 4 / 100)

/-- One row of the 5-year simulation table built by `build_5y_sim`
(keys 연도 / 매출(원) / 소득률(%) / 추정 순이익(원) / 개인 추정세금(원) /
법인 추정법인세(원) / 추정 건강보험(원) / 절감잠재(원)). -/
structure SimRow where
  year : ℤ
  revenue : ℤ
  rate : ℚ
  profit : ℤ
  personalTax : ℤ
  corpTax : ℤ
  health : ℤ
  delta : ℤ
deriving DecidableEq, Repr

/-- The all-zero row, used only as the default for positional access. -/
def blankRow : SimRow := ⟨0, 0, 0, 0, 0, 0, 0, 0⟩

/-- Loop body of `build_5y_sim` for year offset `i` (the year column is
`now_kr().year + i`; the base year is passed explicitly). -/
def simRowAt (sales profit_rate : ℚ) (is_regional : Bool) (base_year : ℤ)
    (i : ℕ) : SimRow :=
  let s := sales * (104 / 100) ^ i
  let p := s * (profit_rate / 100)
  let t_p := estimate_personal_tax p
  let t_c := estimate_corp_tax p
  let h := estimate_health p is_regional
  let delta := (t_p + h) - (t_c + h * (6 / 10))
  ⟨base_year + i, pyRound s, pyRound2 profit_rate, pyRound p,
   pyRound t_p, pyRound t_c, pyRound h, pyRound delta⟩

/-- `build_5y_sim` from `app.py`: five rows, year offsets 0..4. -/
def build_5y_sim (sales profit_rate : ℚ) (is_regional : Bool)
    (base_year : ℤ) : List SimRow :=
  (List.range 5).map (simRowAt sales profit_rate is_regional base_year)

/-- The unrounded revenue `s = sales * 1.04 ** i` of year offset `i`. -/
def rawRevenue (sales : ℚ) (i : ℕ) : ℚ := sales * (104 / 100) ^ i

/-- The unrounded profit `p = s * (profit_rate / 100)` of year offset `i`. -/
def rawProfit (sales profit_rate : ℚ) (i : ℕ) : ℚ :=
  rawRevenue sales i * (profit_rate / 100)

/-- The unrounded savings delta `(t_p + h) - (t_c + h * 0.6)` computed from
profit `p`. -/
def rawDelta (p : ℚ) (is_regional : Bool) : ℚ :=
  (estimate_personal_tax p + estimate_health p is_regional) -
    (estimate_corp_tax p + estimate_health p is_regional * (6 / 10))

lemma simRowAt_eq (sales profit_rate : ℚ) (is_regional : Bool)
    (base_year : ℤ) (i : ℕ) :
    simRowAt sales profit_rate is_regional base_year i =
      ⟨base_year + i,
       pyRound (rawRevenue sales i),
       pyRound2 profit_rate,
       pyRound (rawProfit sales profit_rate i),
       pyRound (estimate_personal_tax (rawProfit sales profit_rate i)),
       pyRound (estimate_corp_tax (rawProfit sales profit_rate i)),
       pyRound (estimate_health (rawProfit sales profit_rate i) is_regional),
       pyRound (rawDelta (rawProfit sales profit_rate i) is_regional)⟩ := rfl

lemma build_5y_sim_getD (sales profit_rate : ℚ) (is_regional : Bool)
    (base_year : ℤ) {i : ℕ} (hi : i < 5) :
    (build_5y_sim sales profit_rate is_regional base_year).getD i blankRow =
      simRowAt sales profit_rate is_regional base_year i := by
  interval_cases i <;> rfl

lemma estimate_personal_tax_nonneg (p : ℚ) : 0 ≤ estimate_personal_tax p := by
  unfold estimate_personal_tax
  split_ifs with h
  · exact le_refl 0
  · push_neg at h
    exact mul_nonneg h.le (le_min (by norm_num) (by positivity))

lemma estimate_corp_tax_nonneg (p : ℚ) : 0 ≤ estimate_corp_tax p := by
  unfold estimate_corp_tax
  split_ifs with h h2
  · exact le_refl 0
  · push_neg at h
    exact mul_nonneg h.le (by norm_num)
  · push_neg at h
    exact mul_nonneg h.le (by norm_num)

lemma estimate_health_nonneg (p : ℚ) (b : Bool) : 0 ≤ estimate_health p b := by
  unfold estimate_health
  split_ifs with h h2
  · exact le_refl 0
  · push_neg at h
    exact mul_nonneg h.le (by norm_num)
  · push_neg at h
    exact mul_nonneg h.le (by norm_num)

/-! ### Excel lookup (`compute_income_rate_from_excel`) -/

/-- Python `str.strip()`: drop whitespace from both ends of the string. -/
def pyStrip (s : String) : String :=
  ⟨((s.data.dropWhile Char.isWhitespace).reverse.dropWhile
      Char.isWhitespace).reverse⟩

/-- One spreadsheet cell: `text` is its pandas `astype(str)` rendering,
`num` is the value `float(cell)` yields (`none` when the coercion raises). -/
structure Cell where
  text : String
  num : Option ℚ
deriving DecidableEq, Repr

/-- A cell whose rendering is empty and which is not numerically coercible. -/
def blankCell : Cell := ⟨"", none⟩

/-- A spreadsheet row, indexed by 0-based column position. -/
abbrev TableRow := List Cell

/-- The cell of row `r` at column position `i`. -/
def cellAt (r : TableRow) (i : ℕ) : Cell := r.getD i blankCell

/-- The first sheet of the uploaded workbook: its column count and its data
rows in natural order. -/
structure Table where
  ncols : ℕ
  rows : List TableRow

/-- Failure note of `compute_income_rate_from_excel` when the sheet has
fewer than 17 columns (accessing `df.columns[16]` raises). -/
def note_shape : String :=
  "엑셀 컬럼 구조(C/F/K/Q)가 예상과 다릅니다. 업로드한 파일을 확인해주세요."

/-- Failure note when no row of column F matches the industry code. -/
def note_no_industry (code : String) : String :=
  "F열에서 산업분류코드(" ++ code ++ ")를 찾지 못했습니다."

/-- Failure note when no row of column K matches the business code. -/
def note_no_biz (biz : String) : String :=
  "K열에서 업종코드(" ++ biz ++ ")를 찾지 못했습니다."

/-- Failure note when the Q-column cell is not numerically coercible. -/
def note_q_not_numeric : String := "Q값 변환에 실패했습니다(숫자인지 확인)."

/-- `IncomeRateResult` dataclass from `app.py`. -/
structure IncomeRateResult where
  industry_code : String
  biz_code : Option String
  q_value : Option ℚ
  income_rate : Option ℚ
  notes : String
deriving DecidableEq, Repr

/-- `compute_income_rate_from_excel` from `app.py`: two chained exact-match
lookups (column F → column C, then column K → column Q) ending with
`income_rate = 100.0 - Q`. -/
def compute_income_rate_from_excel (df : Table) (industry_code : String) :
    IncomeRateResult :=
  if df.ncols < 17 then
    ⟨pyStrip industry_code, none, none, none, note_shape⟩
  else
    match df.rows.find? (fun r => pyStrip (cellAt r 5).text == pyStrip industry_code) with
    | none =>
      ⟨pyStrip industry_code, none, none, none, note_no_industry (pyStrip industry_code)⟩
    | some hit =>
      match df.rows.find? (fun r => pyStrip (cellAt r 10).text == pyStrip (cellAt hit 2).text) with
      | none =>
        ⟨pyStrip industry_code, some (pyStrip (cellAt hit 2).text), none, none,
         note_no_biz (pyStrip (cellAt hit 2).text)⟩
      | some hit2 =>
        match (cellAt hit2 16).num with
        | none =>
          ⟨pyStrip industry_code, some (pyStrip (cellAt hit 2).text), none, none,
           note_q_not_numeric⟩
        | some qv =>
          ⟨pyStrip industry_code, some (pyStrip (cellAt hit 2).text), some qv,
           some (100 - qv), "OK"⟩

/-! ### Usage gate around the narrative-generation call -/

/-- The daily and monthly usage counters of one identity for the current
period keys (`usage_counters` rows read by `usage_get`). -/
structure Usage where
  daily : ℕ
  monthly : ℕ
deriving DecidableEq, Repr

/-- `usage_can` from `app.py`: under the daily AND the monthly quota. -/
def usage_can (u : Usage) : Bool :=
  decide (u.daily < DAILY_LIMIT) && decide (u.monthly < MONTHLY_LIMIT)

/-- `usage_inc` from `app.py`: increment both period counters. -/
def usage_inc (u : Usage) : Usage := ⟨u.daily + 1, u.monthly + 1⟩

/-- Outcome of one generation attempt: stopped at the quota gate, stopped
because the narrative call raised, or completed. -/
inductive GenOutcome where
  | rejected
  | apiFailed
  | generated
deriving DecidableEq, Repr

/-- Result of one generation attempt: its outcome, the usage counters after
the attempt, and whether the external narrative call was made. -/
structure AttemptResult where
  outcome : GenOutcome
  usage : Usage
  externalCallMade : Bool
deriving DecidableEq, Repr

/-- One pass through the generation path of `app.py` (lines 679-720) for a
single identity: the quota gate `if (not is_admin) and (not ok_use): st.stop()`,
then the `gen_consulting_text` call whose success is the input `api_ok`,
then `if not is_admin: usage_inc` only after success. -/
def attempt_generate (is_admin : Bool) (u : Usage) (api_ok : Bool) :
    AttemptResult :=
  if !is_admin && !usage_can u then ⟨.rejected, u, false⟩
  else if !api_ok then ⟨.apiFailed, u, true⟩
  else if !is_admin then ⟨.generated, usage_inc u, true⟩
  else ⟨.generated, u, true⟩

/-- Usage counters left after a sequence of generation attempts with the
given narrative-call results. -/
def run_attempts (is_admin : Bool) : Usage → List Bool → Usage
  | u, [] => u
  | u, ok :: rest =>
    run_attempts is_admin (attempt_generate is_admin u ok).usage rest

/-- Outcomes of a sequence of generation attempts with the given
narrative-call results. -/
def attempts_outcomes (is_admin : Bool) : Usage → List Bool → List GenOutcome
  | _, [] => []
  | u, ok :: rest =>
    (attempt_generate is_admin u ok).outcome ::
      attempts_outcomes is_admin (attempt_generate is_admin u ok).usage rest

/-! ### Claims -/

/-- C4: `estimate_personal_tax` returns 0 when profit ≤ 0 and
`profit * min(0.35, 0.08 + profit/500_000_000 * 0.12)` when profit > 0; its
result never exceeds `0.35 * profit` for profit ≥ 0, and the effective rate
is monotonically increasing in profit and capped at 35%. -/
theorem C4_individual_tax (p : ℚ) :
    (p ≤ 0 → estimate_personal_tax p = 0) ∧
    (0 < p → estimate_personal_tax p =
      p * min (35 / 100) (8 / 100 + p / 500000000 * (12 / 100))) ∧
    (0 ≤ p → estimate_personal_tax p ≤ 35 / 100 * p) ∧
    (∀ q : ℚ, p ≤ q → personal_tax_rate p ≤ personal_tax_rate q) ∧
    personal_tax_rate p ≤ 35 / 100 := by
  refine ⟨fun hp => by simp [estimate_personal_tax, hp],
    fun hp => by rw [estimate_personal_tax, if_neg (not_le.2 hp)]; rfl,
    fun hp => ?_, fun q hpq => ?_, min_le_left _ _⟩
  · by_cases h0 : p ≤ 0
    · have hz : p = 0 := le_antisymm h0 hp
      simp [estimate_personal_tax, hz]
    · push_neg at h0
      rw [estimate_personal_tax, if_neg (not_le.2 h0)]
      calc p * personal_tax_rate p ≤ p * (35 / 100) :=
            mul_le_mul_of_nonneg_left (min_le_left _ _) hp
        _ = 35 / 100 * p := mul_comm _ _
  · unfold personal_tax_rate
    gcongr

/-- Witness for C4 at concrete profits. -/
theorem C4_individual_tax_witness :
    estimate_personal_tax (-5) = 0 ∧
    estimate_personal_tax 108000000 = 11439360 ∧
    estimate_personal_tax 108000000 ≤ 35 / 100 * 108000000 ∧
    personal_tax_rate 100 ≤ personal_tax_rate 200 ∧
    personal_tax_rate 100 ≤ 35 / 100 := by
  refine ⟨(C4_individual_tax (-5)).1 (by norm_num), ?_,
    (C4_individual_tax 108000000).2.2.1 (by norm_num),
    (C4_individual_tax 100).2.2.2.1 200 (by norm_num),
    (C4_individual_tax 100).2.2.2.2⟩
  rw [(C4_individual_tax 108000000).2.1 (by norm_num)]
  rw [min_def]
  norm_num

/-- C5: `estimate_corp_tax` is 0 for profit ≤ 0, `profit * 0.09` for
0 < profit ≤ 200_000_000 and `profit * 0.19` above; `estimate_health` is 0
for profit ≤ 0, `profit * 0.07` for the regional class and `profit * 0.04`
otherwise; and each simulation row surfaces the rounded delta
`(individual_tax + insurance) - (entity_tax + insurance * 0.6)`. -/
theorem C5_entity_tax_insurance_delta (p sales rate : ℚ) (reg : Bool)
    (yr : ℤ) (i : ℕ) :
    (p ≤ 0 → estimate_corp_tax p = 0) ∧
    (0 < p → p ≤ 200000000 → estimate_corp_tax p = p * (9 / 100)) ∧
    (200000000 < p → estimate_corp_tax p = p * (19 / 100)) ∧
    (p ≤ 0 → estimate_health p reg = 0) ∧
    (0 < p → estimate_health p true = p * (7 / 100)) ∧
    (0 < p → estimate_health p false = p * (4 / 100)) ∧
    (simRowAt sales rate reg yr i).delta =
      pyRound ((estimate_personal_tax (rawProfit sales rate i) +
          estimate_health (rawProfit sales rate i) reg) -
        (estimate_corp_tax (rawProfit sales rate i) +
          estimate_health (rawProfit sales rate i) reg * (6 / 10))) := by
  refine ⟨fun hp => by simp [estimate_corp_tax, hp],
    fun hp hb => ?_, fun hb => ?_,
    fun hp => by simp [estimate_health, hp],
    fun hp => by rw [estimate_health, if_neg (not_le.2 hp)]; rfl,
    fun hp => by rw [estimate_health, if_neg (not_le.2 hp)]; rfl,
    rfl⟩
  · rw [estimate_corp_tax, if_neg (not_le.2 hp), if_pos hb]
  · have hp : (0 : ℚ) < p := lt_trans (by norm_num) hb
    rw [estimate_corp_tax, if_neg (not_le.2 hp), if_neg (not_le.2 hb)]

/-- Witness for C5 at concrete profits. -/
theorem C5_entity_tax_insurance_delta_witness :
    estimate_corp_tax (-5) = 0 ∧
    estimate_corp_tax 100000000 = 9000000 ∧
    estimate_corp_tax 300000000 = 57000000 ∧
    estimate_health (-5) true = 0 ∧
    estimate_health 100 true = 7 ∧
    estimate_health 100 false = 4 ∧
    (simRowAt 900000000 12 true 2026 0).delta =
      pyRound ((estimate_personal_tax (rawProfit 900000000 12 0) +
          estimate_health (rawProfit 900000000 12 0) true) -
        (estimate_corp_tax (rawProfit 900000000 12 0) +
          estimate_health (rawProfit 900000000 12 0) true * (6 / 10))) := by
  have h := C5_entity_tax_insurance_delta 100 900000000 12 true 2026 0
  refine ⟨(C5_entity_tax_insurance_delta (-5) 0 0 true 0 0).1 (by norm_num),
    ?_, ?_,
    (C5_entity_tax_insurance_delta (-5) 0 0 true 0 0).2.2.2.1 (by norm_num),
    ?_, ?_, h.2.2.2.2.2.2⟩
  · rw [(C5_entity_tax_insurance_delta 100000000 0 0 true 0 0).2.1
      (by norm_num) (by norm_num)]
    norm_num
  · rw [(C5_entity_tax_insurance_delta 300000000 0 0 true 0 0).2.2.1
      (by norm_num)]
    norm_num
  · rw [h.2.2.2.2.1 (by norm_num)]
    norm_num
  · rw [h.2.2.2.2.2.1 (by norm_num)]
    norm_num

/-- C10: an identity whose user record has the admin flag set is never
blocked by the quota gate regardless of its counters (the attempt always
reaches the external call, and completes whenever the call succeeds), and
its usage counters are never incremented. -/
theorem C10_admin_bypass (u : Usage) (api_ok : Bool) :
    (attempt_generate true u api_ok).outcome =
      (if api_ok then GenOutcome.generated else GenOutcome.apiFailed) ∧
    (attempt_generate true u api_ok).usage = u ∧
    (attempt_generate true u api_ok).externalCallMade = true := by
  cases api_ok <;> exact ⟨rfl, rfl, rfl⟩

/-- C8: every surfaced currency value of a simulation row (revenue, profit,
individual tax, entity tax, insurance, delta) is the nearest-integer
rounding (half to even) of its unrounded value, and the rate field is the
rate rounded to 2 decimal places. -/
theorem C8_rounding (sales rate : ℚ) (reg : Bool) (yr : ℤ) (i : ℕ) :
    ((simRowAt sales rate reg yr i).revenue = pyRound (rawRevenue sales i) ∧
      |rawRevenue sales i - ((simRowAt sales rate reg yr i).revenue : ℚ)| ≤ 1 / 2) ∧
    ((simRowAt sales rate reg yr i).profit = pyRound (rawProfit sales rate i) ∧
      |rawProfit sales rate i - ((simRowAt sales rate reg yr i).profit : ℚ)| ≤ 1 / 2) ∧
    ((simRowAt sales rate reg yr i).personalTax =
        pyRound (estimate_personal_tax (rawProfit sales rate i)) ∧
      |estimate_personal_tax (rawProfit sales rate i) -
        ((simRowAt sales rate reg yr i).personalTax : ℚ)| ≤ 1 / 2) ∧
    ((simRowAt sales rate reg yr i).corpTax =
        pyRound (estimate_corp_tax (rawProfit sales rate i)) ∧
      |estimate_corp_tax (rawProfit sales rate i) -
        ((simRowAt sales rate reg yr i).corpTax : ℚ)| ≤ 1 / 2) ∧
    ((simRowAt sales rate reg yr i).health =
        pyRound (estimate_health (rawProfit sales rate i) reg) ∧
      |estimate_health (rawProfit sales rate i) reg -
        ((simRowAt sales rate reg yr i).health : ℚ)| ≤ 1 / 2) ∧
    ((simRowAt sales rate reg yr i).delta =
        pyRound (rawDelta (rawProfit sales rate i) reg) ∧
      |rawDelta (rawProfit sales rate i) reg -
        ((simRowAt sales rate reg yr i).delta : ℚ)| ≤ 1 / 2) ∧
    ((simRowAt sales rate reg yr i).rate = pyRound2 rate ∧
      |rate - (simRowAt sales rate reg yr i).rate| ≤ 1 / 200) := by
  rw [simRowAt_eq]
  refine ⟨⟨rfl, pyRound_close _⟩, ⟨rfl, pyRound_close _⟩, ⟨rfl, pyRound_close _⟩,
    ⟨rfl, pyRound_close _⟩, ⟨rfl, pyRound_close _⟩, ⟨rfl, pyRound_close _⟩,
    rfl, ?_⟩
  have h := pyRound_close (rate * 100)
  rw [abs_le] at h ⊢
  unfold pyRound2
  constructor <;> linarith [h.1, h.2]

/-- C1 as stated is refuted: a row with non-negative profit can have a
negative delta. With base revenue 2_500_000_000 and rate 10 (both within
the projector contract), row 0 has profit 250_000_000 ≥ 0 but delta
-5_500_000 < 0. -/
theorem C1_counterexample :
    (0 : ℚ) ≤ 2500000000 ∧ (0 : ℚ) ≤ 10 ∧ (10 : ℚ) ≤ 100 ∧
    0 ≤ ((build_5y_sim 2500000000 10 true 2026).getD 0 blankRow).profit ∧
    ((build_5y_sim 2500000000 10 true 2026).getD 0 blankRow).delta < 0 := by
  refine ⟨by norm_num, by norm_num, by norm_num, ?_, ?_⟩
  · show (0 : ℤ) ≤ (simRowAt 2500000000 10 true 2026 0).profit
    rw [simRowAt_eq]
    norm_num [rawProfit, rawRevenue, pyRound]
  · show (simRowAt 2500000000 10 true 2026 0).delta < 0
    rw [simRowAt_eq]
    norm_num [rawDelta, rawProfit, rawRevenue, pyRound, estimate_personal_tax,
      personal_tax_rate, estimate_corp_tax, estimate_health, min_def]

/-- C1 amended: in a projection built from a non-negative base revenue,
every row with non-negative profit has non-negative revenue, profit,
individual tax, entity tax and insurance (delta can be negative), and row
i's surfaced revenue is base revenue × 1.04^i rounded to the nearest
integer. -/
theorem C1_nonneg_fields (sales rate : ℚ) (reg : Bool) (yr : ℤ) (i : ℕ)
    (hi : i < 5) (hs : 0 ≤ sales)
    (hp : 0 ≤ ((build_5y_sim sales rate reg yr).getD i blankRow).profit) :
    0 ≤ ((build_5y_sim sales rate reg yr).getD i blankRow).revenue ∧
    0 ≤ ((build_5y_sim sales rate reg yr).getD i blankRow).profit ∧
    0 ≤ ((build_5y_sim sales rate reg yr).getD i blankRow).personalTax ∧
    0 ≤ ((build_5y_sim sales rate reg yr).getD i blankRow).corpTax ∧
    0 ≤ ((build_5y_sim sales rate reg yr).getD i blankRow).health ∧
    ((build_5y_sim sales rate reg yr).getD i blankRow).revenue =
      pyRound (sales * (104 / 100) ^ i) := by
  rw [build_5y_sim_getD sales rate reg yr hi] at hp ⊢
  rw [simRowAt_eq]
  refine ⟨?_, hp, ?_, ?_, ?_, rfl⟩
  · exact pyRound_nonneg (mul_nonneg hs (pow_nonneg (by norm_num) i))
  · exact pyRound_nonneg (estimate_personal_tax_nonneg _)
  · exact pyRound_nonneg (estimate_corp_tax_nonneg _)
  · exact pyRound_nonneg (estimate_health_nonneg _ _)

/-- Witness for C1 at the projector inputs of the spec scenario. -/
theorem C1_nonneg_fields_witness :
    0 ≤ ((build_5y_sim 900000000 12 true 2026).getD 0 blankRow).revenue ∧
    0 ≤ ((build_5y_sim 900000000 12 true 2026).getD 0 blankRow).personalTax ∧
    ((build_5y_sim 900000000 12 true 2026).getD 0 blankRow).revenue =
      pyRound (900000000 * (104 / 100) ^ 0) := by
  have h := C1_nonneg_fields 900000000 12 true 2026 0 (by norm_num) (by norm_num)
    (by show (0 : ℤ) ≤ (simRowAt 900000000 12 true 2026 0).profit
        rw [simRowAt_eq]
        norm_num [rawProfit, rawRevenue, pyRound])
  exact ⟨h.1, h.2.2.1, h.2.2.2.2.2⟩

/-- C3 as stated is refuted: with base revenue 0 (which satisfies s ≥ 0) and
rate 12 ∈ [0,100], all five revenues are 0, so they are not strictly
increasing. -/
theorem C3_counterexample :
    (0 : ℚ) ≤ 0 ∧ (0 : ℚ) ≤ 12 ∧ (12 : ℚ) ≤ 100 ∧
    (build_5y_sim 0 12 true 2026).length = 5 ∧
    ((build_5y_sim 0 12 true 2026).getD 0 blankRow).revenue = 0 ∧
    ((build_5y_sim 0 12 true 2026).getD 1 blankRow).revenue = 0 := by
  refine ⟨le_refl 0, by norm_num, by norm_num, rfl, ?_, ?_⟩
  · show (simRowAt 0 12 true 2026 0).revenue = 0
    rw [simRowAt_eq]
    norm_num [rawRevenue, pyRound]
  · show (simRowAt 0 12 true 2026 1).revenue = 0
    rw [simRowAt_eq]
    norm_num [rawRevenue, pyRound]

/-- C3 amended: for rate r ∈ [0,100] and base revenue s ≥ 0, the projection
has exactly 5 rows, the rate field is constant across rows and equal to
round(r, 2), the surfaced revenues are non-decreasing, and the unrounded
revenues s·1.04^i are strictly increasing whenever s > 0. -/
theorem C3_five_rows (sales rate : ℚ) (reg : Bool) (yr : ℤ)
    (hs : 0 ≤ sales) (hr0 : 0 ≤ rate) (hr1 : rate ≤ 100) :
    (build_5y_sim sales rate reg yr).length = 5 ∧
    (∀ row ∈ build_5y_sim sales rate reg yr, row.rate = pyRound2 rate) ∧
    (∀ i : ℕ, i < 4 →
      ((build_5y_sim sales rate reg yr).getD i blankRow).revenue ≤
        ((build_5y_sim sales rate reg yr).getD (i + 1) blankRow).revenue) ∧
    (0 < sales → ∀ i : ℕ, i < 4 →
      rawRevenue sales i < rawRevenue sales (i + 1)) := by
  refine ⟨by simp [build_5y_sim], ?_, ?_, ?_⟩
  · intro row hrow
    simp only [build_5y_sim, List.mem_map] at hrow
    obtain ⟨j, _, rfl⟩ := hrow
    rfl
  · intro i hi
    rw [build_5y_sim_getD sales rate reg yr (by omega),
      build_5y_sim_getD sales rate reg yr (by omega), simRowAt_eq, simRowAt_eq]
    apply pyRound_mono
    unfold rawRevenue
    apply mul_le_mul_of_nonneg_left _ hs
    exact pow_le_pow_right₀ (by norm_num) (Nat.le_succ i)
  · intro hpos i _
    unfold rawRevenue
    apply mul_lt_mul_of_pos_left _ hpos
    exact pow_lt_pow_right₀ (by norm_num) (Nat.lt_succ_self i)

/-- Witness for C3 at the spec scenario inputs. -/
theorem C3_five_rows_witness :
    (build_5y_sim 900000000 12 true 2026).length = 5 ∧
    ((build_5y_sim 900000000 12 true 2026).getD 0 blankRow).revenue ≤
      ((build_5y_sim 900000000 12 true 2026).getD 1 blankRow).revenue ∧
    rawRevenue 900000000 0 < rawRevenue 900000000 1 := by
  have h := C3_five_rows 900000000 12 true 2026 (by norm_num) (by norm_num)
    (by norm_num)
  exact ⟨h.1, h.2.2.1 0 (by norm_num), h.2.2.2 (by norm_num) 0 (by norm_num)⟩

/-- C2 as stated is refuted for admin identities: an admin makes 5
consecutive successful generations on one day, the counters stay at 0, and
the 6th attempt is not rejected — the external call is made and succeeds. -/
theorem C2_counterexample :
    attempts_outcomes true ⟨0, 0⟩ (List.replicate DAILY_LIMIT true) =
      List.replicate DAILY_LIMIT GenOutcome.generated ∧
    run_attempts true ⟨0, 0⟩ (List.replicate DAILY_LIMIT true) = ⟨0, 0⟩ ∧
    (attempt_generate true
      (run_attempts true ⟨0, 0⟩ (List.replicate DAILY_LIMIT true))
      true).externalCallMade = true ∧
    (attempt_generate true
      (run_attempts true ⟨0, 0⟩ (List.replicate DAILY_LIMIT true))
      true).outcome = GenOutcome.generated := by
  refine ⟨rfl, rfl, rfl, rfl⟩

/-- C2 amended: for a non-admin identity the external call is only reached
when both counters are under quota, the counters are incremented exactly on
a completed generation and never on failure, and after 5 consecutive
successful generations the 6th same-day attempt is rejected before any
external call. -/
theorem C2_quota_gate (u : Usage) (api_ok : Bool) :
    ((attempt_generate false u api_ok).externalCallMade = true →
      usage_can u = true) ∧
    ((attempt_generate false u api_ok).usage =
      if (attempt_generate false u api_ok).outcome = GenOutcome.generated
      then usage_inc u else u) ∧
    attempts_outcomes false ⟨0, 0⟩ (List.replicate DAILY_LIMIT true) =
      List.replicate DAILY_LIMIT GenOutcome.generated ∧
    run_attempts false ⟨0, 0⟩ (List.replicate DAILY_LIMIT true) =
      ⟨DAILY_LIMIT, DAILY_LIMIT⟩ ∧
    (attempt_generate false ⟨DAILY_LIMIT, DAILY_LIMIT⟩ api_ok).outcome =
      GenOutcome.rejected ∧
    (attempt_generate false ⟨DAILY_LIMIT, DAILY_LIMIT⟩ api_ok).externalCallMade =
      false := by
  refine ⟨?_, ?_, rfl, rfl, ?_, ?_⟩
  · intro h
    cases hcu : usage_can u
    · rw [attempt_generate] at h
      simp [hcu] at h
    · rfl
  · cases hcu : usage_can u <;> cases api_ok <;>
      simp [attempt_generate, hcu]
  · cases api_ok <;> rfl
  · cases api_ok <;> rfl

/-- Witness for C2 on a fresh identity. -/
theorem C2_quota_gate_witness :
    usage_can ⟨0, 0⟩ = true ∧
    run_attempts false ⟨0, 0⟩ (List.replicate DAILY_LIMIT true) =
      ⟨DAILY_LIMIT, DAILY_LIMIT⟩ ∧
    (attempt_generate false ⟨DAILY_LIMIT, DAILY_LIMIT⟩ true).outcome =
      GenOutcome.rejected :=
  ⟨(C2_quota_gate ⟨0, 0⟩ true).1 rfl,
   (C2_quota_gate ⟨0, 0⟩ true).2.2.2.1,
   (C2_quota_gate ⟨0, 0⟩ true).2.2.2.2.1⟩

/-- C9 as stated is refuted: at `build_5y_sim(900000000, 12.0, regional)` the
row-0 individual tax is exactly 11_439_360, which is 40_360 away from the
11_399_000 figure of the claim — a gap no integer rounding produces. -/
theorem C9_counterexample :
    ((build_5y_sim 900000000 12 true 2026).getD 0 blankRow).personalTax =
      11439360 ∧
    (11399000 : ℤ) + 40360 = 11439360 := by
  refine ⟨?_, by norm_num⟩
  show (simRowAt 900000000 12 true 2026 0).personalTax = 11439360
  rw [simRowAt_eq]
  norm_num [rawProfit, rawRevenue, pyRound, estimate_personal_tax,
    personal_tax_rate, min_def]

/-- C9 amended: for `build_5y_sim(900000000, 12.0, regional)` row 0 has
revenue 900_000_000, profit 108_000_000, individual tax
108_000_000 × (0.08 + 0.02592) = 11_439_360, entity tax 9_720_000 and
insurance 7_560_000. -/
theorem C9_scenario_row0 :
    ((build_5y_sim 900000000 12 true 2026).getD 0 blankRow).revenue =
      900000000 ∧
    ((build_5y_sim 900000000 12 true 2026).getD 0 blankRow).profit =
      108000000 ∧
    ((build_5y_sim 900000000 12 true 2026).getD 0 blankRow).personalTax =
      pyRound (108000000 * (8 / 100 + 2592 / 100000)) ∧
    pyRound ((108000000 : ℚ) * (8 / 100 + 2592 / 100000)) = 11439360 ∧
    ((build_5y_sim 900000000 12 true 2026).getD 0 blankRow).corpTax =
      9720000 ∧
    ((build_5y_sim 900000000 12 true 2026).getD 0 blankRow).health =
      7560000 := by
  refine ⟨?_, ?_, ?_, by norm_num [pyRound], ?_, ?_⟩ <;>
    rw [build_5y_sim_getD 900000000 12 true 2026 (by norm_num), simRowAt_eq]
  · norm_num [rawRevenue, pyRound]
  · norm_num [rawProfit, rawRevenue, pyRound]
  · norm_num [rawProfit, rawRevenue, pyRound, estimate_personal_tax,
      personal_tax_rate, min_def]
  · norm_num [rawProfit, rawRevenue, pyRound, estimate_corp_tax]
  · norm_num [rawProfit, rawRevenue, pyRound, estimate_health]

/-- A 17-column row holding the given C, F, K column texts and Q column
cell, all other cells blank. -/
def testRow (c f k : String) (q : Cell) : TableRow :=
  [blankCell, blankCell, ⟨c, none⟩, blankCell, blankCell, ⟨f, none⟩,
   blankCell, blankCell, blankCell, blankCell, ⟨k, none⟩,
   blankCell, blankCell, blankCell, blankCell, blankCell, q]

/-- Scenario table of the spec: search column "22232" maps to code "12",
and key column "12" carries factor 35. -/
def demoTable : Table :=
  ⟨17, [testRow "12" "22232" "0" blankCell,
        testRow "0" "0" "12" ⟨"35.0", some 35⟩]⟩

/-- A table with only 5 columns. -/
def shapeTable : Table := ⟨5, [testRow "12" "22232" "12" ⟨"35.0", some 35⟩]⟩

/-- A 17-column table in which no search-column value is "22232". -/
def noSearchTable : Table := ⟨17, [testRow "12" "99999" "12" ⟨"35.0", some 35⟩]⟩

/-- A 17-column table whose search column matches but whose key column
never carries the intermediate code. -/
def noKeyTable : Table := ⟨17, [testRow "12" "22232" "77" ⟨"35.0", some 35⟩]⟩

/-- A 17-column table whose two lookups succeed but whose factor cell is
not numerically coercible. -/
def badFactorTable : Table := ⟨17, [testRow "12" "22232" "12" ⟨"abc", none⟩]⟩

/-- C6: on the success path the resolver trims the target code, takes the
first row whose column-5 value (trimmed) equals it, reads its column-2 value
as the intermediate code, takes the first row whose column-10 value equals
that code, coerces its column-16 value to a number `q`, and returns rate
`100 - q` with status "OK". -/
theorem C6_resolve_success (t : Table) (code : String)
    (h17 : ¬ t.ncols < 17) (hit : TableRow)
    (h1 : t.rows.find? (fun r => pyStrip (cellAt r 5).text == pyStrip code) =
      some hit)
    (hit2 : TableRow)
    (h2 : t.rows.find?
      (fun r => pyStrip (cellAt r 10).text == pyStrip (cellAt hit 2).text) =
      some hit2)
    (qv : ℚ) (h3 : (cellAt hit2 16).num = some qv) :
    compute_income_rate_from_excel t code =
      ⟨pyStrip code, some (pyStrip (cellAt hit 2).text), some qv, some (100 - qv),
       "OK"⟩ := by
  simp only [compute_income_rate_from_excel, if_neg h17, h1, h2, h3]

/-- Witness for C6: the spec scenario table resolves "22232" to rate 65. -/
theorem C6_resolve_success_witness :
    compute_income_rate_from_excel demoTable "22232" =
      ⟨"22232", some "12", some 35, some 65, "OK"⟩ := by
  have h := C6_resolve_success demoTable "22232" (by norm_num [demoTable])
    (testRow "12" "22232" "0" blankCell) rfl
    (testRow "0" "0" "12" ⟨"35.0", some 35⟩) rfl 35 rfl
  rw [h]
  norm_num [testRow, cellAt, blankCell]
  exact ⟨rfl, rfl⟩

/-- C7: the resolver distinguishes its failure modes: fewer than 17 columns
is rejected with the table-shape note independently of the rows; an
unmatched search code yields a result with all derived fields absent; an
unmatched intermediate code yields a result carrying the intermediate code
but no factor and no rate; a non-numeric factor yields its own note with
the factor and rate absent. -/
theorem C7_resolve_failures (t : Table) (code : String) :
    (t.ncols < 17 → compute_income_rate_from_excel t code =
      ⟨pyStrip code, none, none, none, note_shape⟩) ∧
    (¬ t.ncols < 17 →
      t.rows.find? (fun r => pyStrip (cellAt r 5).text == pyStrip code) = none →
      compute_income_rate_from_excel t code =
        ⟨pyStrip code, none, none, none, note_no_industry (pyStrip code)⟩) ∧
    (∀ hit, ¬ t.ncols < 17 →
      t.rows.find? (fun r => pyStrip (cellAt r 5).text == pyStrip code) = some hit →
      t.rows.find?
        (fun r => pyStrip (cellAt r 10).text == pyStrip (cellAt hit 2).text) = none →
      compute_income_rate_from_excel t code =
        ⟨pyStrip code, some (pyStrip (cellAt hit 2).text), none, none,
         note_no_biz (pyStrip (cellAt hit 2).text)⟩) ∧
    (∀ hit hit2, ¬ t.ncols < 17 →
      t.rows.find? (fun r => pyStrip (cellAt r 5).text == pyStrip code) = some hit →
      t.rows.find?
        (fun r => pyStrip (cellAt r 10).text == pyStrip (cellAt hit 2).text) =
        some hit2 →
      (cellAt hit2 16).num = none →
      compute_income_rate_from_excel t code =
        ⟨pyStrip code, some (pyStrip (cellAt hit 2).text), none, none,
         note_q_not_numeric⟩) := by
  refine ⟨fun h => by simp only [compute_income_rate_from_excel, if_pos h],
    fun h17 h1 => by simp only [compute_income_rate_from_excel, if_neg h17, h1],
    fun hit h17 h1 h2 => by
      simp only [compute_income_rate_from_excel, if_neg h17, h1, h2],
    fun hit hit2 h17 h1 h2 h3 => by
      simp only [compute_income_rate_from_excel, if_neg h17, h1, h2, h3]⟩

/-- Witness for C7: four concrete tables hit the four failure modes, with
the four status notes pairwise distinct and distinct from "OK". -/
theorem C7_resolve_failures_witness :
    compute_income_rate_from_excel shapeTable "22232" =
      ⟨"22232", none, none, none, note_shape⟩ ∧
    compute_income_rate_from_excel noSearchTable "22232" =
      ⟨"22232", none, none, none, note_no_industry "22232"⟩ ∧
    compute_income_rate_from_excel noKeyTable "22232" =
      ⟨"22232", some "12", none, none, note_no_biz "12"⟩ ∧
    compute_income_rate_from_excel badFactorTable "22232" =
      ⟨"22232", some "12", none, none, note_q_not_numeric⟩ ∧
    note_shape ≠ note_no_industry "22232" ∧
    note_shape ≠ note_no_biz "12" ∧
    note_shape ≠ note_q_not_numeric ∧
    note_no_industry "22232" ≠ note_no_biz "12" ∧
    note_no_industry "22232" ≠ note_q_not_numeric ∧
    note_no_biz "12" ≠ note_q_not_numeric ∧
    note_shape ≠ "OK" ∧ note_no_industry "22232" ≠ "OK" ∧
    note_no_biz "12" ≠ "OK" ∧ note_q_not_numeric ≠ "OK" := by
  refine ⟨?_, ?_, ?_, ?_, by decide, by decide, by decide, by decide,
    by decide, by decide, by decide, by decide, by decide, by decide⟩
  · have h := (C7_resolve_failures shapeTable "22232").1 (by norm_num [shapeTable])
    rw [h]
    rfl
  · have h := (C7_resolve_failures noSearchTable "22232").2.1
      (by norm_num [noSearchTable]) rfl
    rw [h]
    rfl
  · have h := (C7_resolve_failures noKeyTable "22232").2.2.1
      (testRow "12" "22232" "77" ⟨"35.0", some 35⟩)
      (by norm_num [noKeyTable]) rfl rfl
    rw [h]
    rfl
  · have h := (C7_resolve_failures badFactorTable "22232").2.2.2
      (testRow "12" "22232" "12" ⟨"abc", none⟩)
      (testRow "12" "22232" "12" ⟨"abc", none⟩)
      (by norm_num [badFactorTable]) rfl rfl rfl
    rw [h]
    rfl

end App
